import Mathlib

/-!
Shallow embedding of the WaterRower workout recorder (src/main.rs, src/wr_utils.rs).

Modelling conventions:
* The device protocol is ASCII; Rust `&str` values and their byte-index
  slices are modelled as `List Char` (on ASCII data, byte indices and char
  indices coincide).
* Rust `u32` values are modelled as `Nat`; where the source performs `u32`
  arithmetic that could wrap in a release build, the result is reduced
  `% 2^32`.  `u32::from_str_radix` rejects results above `u32::MAX`, which
  the parser model reproduces.
* Rust `f32` values (`stroke_ratio` and the averages) are modelled as exact
  rationals `ℚ`; the source's arithmetic on them is translated literally.
* Code paths that panic (`unwrap` on a missing `HashMap` entry or a failed
  parse, out-of-range string slicing) are modelled by `Option`, with `none`
  standing for the panic.
* The `HashMap<&str, String>` of raw payloads is modelled by an association
  list with most-recent-insertion-first lookup, which is observationally
  equivalent to `HashMap::insert`/`get`.
* Serial I/O is modelled by passing the list of received lines (the result
  of `str::lines` on the responses) to the functions that consume them; the
  clock strings that `chrono::Local::now` produces are passed as parameters.
-/

namespace WaterRower

/-- ASCII strings of the protocol, as lists of characters. -/
abbrev Str := List Char

/-- Raw payload map of one polling cycle: register name to ASCII payload.
Models `HashMap<&str, String>`; lookup takes the most recent insertion. -/
abbrev RawValues := List (Str × Str)

/-- `HashMap::insert` model: the new binding shadows any older one. -/
def rawInsert (r : RawValues) (k v : Str) : RawValues := (k, v) :: r

/-- `HashMap::get` model: first (most recent) binding for the key. -/
def rawGet (r : RawValues) (k : Str) : Option Str :=
  match r with
  | [] => none
  | (k2, v) :: rest => if k2 = k then some v else rawGet rest k

/-- Value of one ASCII digit, as in Rust `char::to_digit` before the radix
check: `0`-`9`, then letters starting at 10. -/
def digitVal (c : Char) : Option Nat :=
  if ('0' ≤ c ∧ c ≤ '9') then some (c.toNat - Char.toNat '0')
  else if ('a' ≤ c ∧ c ≤ 'z') then some (c.toNat - Char.toNat 'a' + 10)
  else if ('A' ≤ c ∧ c ≤ 'Z') then some (c.toNat - Char.toNat 'A' + 10)
  else none

/-- Modulus of Rust `u32` arithmetic. -/
def u32Mod : Nat := 2 ^ 32

/-- Digit loop of `u32::from_str_radix`: every character must be a digit
below the radix, and the accumulator may never exceed `u32::MAX`. -/
def parseDigitsAux (radix : Nat) : Nat → List Char → Option Nat
  | acc, [] => some acc
  | acc, c :: cs =>
    match digitVal c with
    | none => none
    | some d =>
      if d < radix ∧ radix * acc + d < u32Mod then parseDigitsAux radix (radix * acc + d) cs
      else none

/-- Nonempty digit run (an empty digit string is an error in Rust). -/
def parseDigits1 (radix : Nat) (s : Str) : Option Nat :=
  match s with
  | [] => none
  | _ => parseDigitsAux radix 0 s

/-- Model of `u32::from_str_radix(s, radix)`: optional sign, then digits;
for the unsigned target a `-` sign only admits the value zero. -/
def from_str_radix (radix : Nat) (s : Str) : Option Nat :=
  match s with
  | [] => none
  | c :: rest =>
    if c = '+' then parseDigits1 radix rest
    else if c = '-' then
      match parseDigits1 radix rest with
      | some 0 => some 0
      | _ => none
    else parseDigits1 radix (c :: rest)

/-- Model of the Rust byte slice `&s[a..b]`: defined only inside bounds
(out of bounds panics, modelled as `none`). -/
def strSlice (s : Str) (a b : Nat) : Option Str :=
  if a ≤ b ∧ b ≤ s.length then some ((s.drop a).take (b - a)) else none

/-- Hexadecimal value of a digit string, most-significant digit first
(spec-side notion used to state decoding claims). -/
def specHexVal (s : Str) : Nat :=
  s.foldl (fun a c => 16 * a + (digitVal c).getD 0) 0

/-- `const RET_ERROR: &str = "ERROR"` -/
def RET_ERROR : Str := "ERROR".toList

/-- `const RET_HW_TYPE: &str = "_WR_"` -/
def RET_HW_TYPE : Str := "_WR_".toList

/-- `const RET_DATA_1_BYTE: &str = "IDS"` -/
def RET_DATA_1_BYTE : Str := "IDS".toList

/-- `const RET_DATA_2_BYTES: &str = "IDD"` -/
def RET_DATA_2_BYTES : Str := "IDD".toList

/-- `const RET_DATA_3_BYTES: &str = "IDT"` -/
def RET_DATA_3_BYTES : Str := "IDT".toList

/-- `const WR_STROKE_START: &str = "SS"` -/
def WR_STROKE_START : Str := "SS".toList

/-- Catalog entry for one telemetry register (`struct WaterRowerValue`). -/
structure WaterRowerValue where
  name : Str
  command : Str
  response : Str
deriving DecidableEq, Repr

/-- `const DISTANCE` -/
def DISTANCE : WaterRowerValue :=
  { name := "Distance".toList, command := "IRD055".toList, response := "IDD055".toList }

/-- `const STROKE_COUNT` -/
def STROKE_COUNT : WaterRowerValue :=
  { name := "Stroke Count".toList, command := "IRD140".toList, response := "IDD140".toList }

/-- `const STROKE_TIME_AVG` -/
def STROKE_TIME_AVG : WaterRowerValue :=
  { name := "Stroke Time Average".toList, command := "IRS142".toList, response := "IDS142".toList }

/-- `const STROKE_PULL_TIME_AVG` -/
def STROKE_PULL_TIME_AVG : WaterRowerValue :=
  { name := "Stroke Pull Time Average".toList, command := "IRS143".toList,
    response := "IDS143".toList }

/-- `const ZONE_HEART_RATE` -/
def ZONE_HEART_RATE : WaterRowerValue :=
  { name := "Heart Rate (Zone)".toList, command := "IRS1A0".toList, response := "IDS1A0".toList }

/-- `const ZONE_SECONDS_PER_500M` -/
def ZONE_SECONDS_PER_500M : WaterRowerValue :=
  { name := "Seconds per 500 Meters (Zone)".toList, command := "IRD1A5".toList,
    response := "IDD1A5".toList }

/-- `const ZONE_STROKE_RATE` -/
def ZONE_STROKE_RATE : WaterRowerValue :=
  { name := "Stroke Rate (Zone)".toList, command := "IRS1A9".toList, response := "IDS1A9".toList }

/-- `const DISPLAY_SECONDS` -/
def DISPLAY_SECONDS : WaterRowerValue :=
  { name := "Seconds (Display)".toList, command := "IRS1E1".toList, response := "IDS1E1".toList }

/-- `const DISPLAY_MINUTES` -/
def DISPLAY_MINUTES : WaterRowerValue :=
  { name := "Minutes (Display)".toList, command := "IRS1E2".toList, response := "IDS1E2".toList }

/-- `const DISPLAY_HOURS` -/
def DISPLAY_HOURS : WaterRowerValue :=
  { name := "Hours (Display)".toList, command := "IRS1E3".toList, response := "IDS1E3".toList }

/-- `const WATER_ROWER_VALUES: [WaterRowerValue; 10]`, in source order. -/
def WATER_ROWER_VALUES : List WaterRowerValue :=
  [DISPLAY_SECONDS, DISPLAY_MINUTES, DISPLAY_HOURS, DISTANCE, STROKE_COUNT,
   STROKE_TIME_AVG, STROKE_PULL_TIME_AVG, ZONE_HEART_RATE, ZONE_SECONDS_PER_500M,
   ZONE_STROKE_RATE]

/-- `pub enum WorkoutState` -/
inductive WorkoutState where
  | Init
  | Connected
  | Running
  | Finished
deriving DecidableEq, Repr

/-- `pub struct InstantWorkoutValues` (`u32` fields as `Nat`, `f32` as `ℚ`). -/
structure InstantWorkoutValues where
  time_in_seconds : Nat
  distance_in_meters : Nat
  seconds_per_500m : Nat
  stroke_count : Nat
  strokes_per_minute : Nat
  stroke_ratio : ℚ
  heart_rate : Nat
deriving DecidableEq, Repr

/-- `pub fn instant_workout_values_init` -/
def instant_workout_values_init : InstantWorkoutValues :=
  { time_in_seconds := 0, distance_in_meters := 0, seconds_per_500m := 0,
    stroke_count := 0, strokes_per_minute := 0, stroke_ratio := 0, heart_rate := 0 }

/-- `pub struct GlobalWorkoutValues` -/
structure GlobalWorkoutValues where
  date_time_start : Str
  date_time_end : Str
  model : Str
  fw_version : Str
  datapoints : Nat
  total_time_in_seconds : Nat
  total_distance_in_meters : Nat
  total_stroke_count : Nat
  seconds_per_500m_min : Nat
  seconds_per_500m_avg : ℚ
  seconds_per_500m_max : Nat
  strokes_per_minute_min : Nat
  strokes_per_minute_avg : ℚ
  strokes_per_minute_max : Nat
  stroke_ratio_min : ℚ
  stroke_ratio_avg : ℚ
  stroke_ratio_max : ℚ
  heart_rate_min : Nat
  heart_rate_avg : ℚ
  heart_rate_max : Nat
deriving DecidableEq, Repr

/-- `pub fn global_workout_values_init`: all counters and statistics start
at zero; the start timestamp and the model/firmware strings parsed from the
`IV?` response are passed in (clock and serial port are external). -/
def global_workout_values_init (dt_start model fw : Str) : GlobalWorkoutValues :=
  { date_time_start := dt_start, date_time_end := [], model := model, fw_version := fw,
    datapoints := 0, total_time_in_seconds := 0, total_distance_in_meters := 0,
    total_stroke_count := 0,
    seconds_per_500m_min := 0, seconds_per_500m_avg := 0, seconds_per_500m_max := 0,
    strokes_per_minute_min := 0, strokes_per_minute_avg := 0, strokes_per_minute_max := 0,
    stroke_ratio_min := 0, stroke_ratio_avg := 0, stroke_ratio_max := 0,
    heart_rate_min := 0, heart_rate_avg := 0, heart_rate_max := 0 }

/-- Pace decoding in `instant_workout_values_update`: hex value of payload
characters `[0..2)` plus 256 times the hex value of characters `[2..4)`
(two `u32` slices parses; their combination cannot exceed `u32::MAX`,
the `% u32Mod` mirrors the `u32` arithmetic). -/
def decode_pace (p : Str) : Option Nat :=
  Option.bind (strSlice p 0 2) fun lows =>
  Option.bind (from_str_radix 16 lows) fun lo =>
  Option.bind (strSlice p 2 4) fun highs =>
  Option.bind (from_str_radix 16 highs) fun hi =>
  some ((lo + 256 * hi) % u32Mod)

/-- `iwv.time_in_seconds = ...` of `instant_workout_values_update`: three
decimal display registers combined as `s + 60*m + 3600*h` in `u32`
arithmetic. -/
def decode_time (raw : RawValues) : Option Nat := do
  let ssec ← rawGet raw DISPLAY_SECONDS.name
  let s ← from_str_radix 10 ssec
  let smin ← rawGet raw DISPLAY_MINUTES.name
  let m ← from_str_radix 10 smin
  let shr ← rawGet raw DISPLAY_HOURS.name
  let hcnt ← from_str_radix 10 shr
  pure ((s + 60 * m + 3600 * hcnt) % u32Mod)

/-- `u32::from_str_radix(raw_values.get(v.name).unwrap(), 16).unwrap()`,
the decoding the source applies to the distance, stroke count, stroke rate,
stroke time, pull time and heart rate payloads. -/
def decode_hex_field (raw : RawValues) (v : WaterRowerValue) : Option Nat := do
  let p ← rawGet raw v.name
  from_str_radix 16 p

/-- `iwv.seconds_per_500m = ...`: the pace payload is looked up and decoded
by `decode_pace`. -/
def decode_pace_field (raw : RawValues) : Option Nat := do
  let p ← rawGet raw ZONE_SECONDS_PER_500M.name
  decode_pace p

/-- Stroke ratio block of `instant_workout_values_update`: both averages
are decoded as hex `u32`, cast to `f32` (modelled `ℚ`), and combined by the
guarded formula with the vendor constant `1.25`. -/
def decode_stroke_ratio (raw : RawValues) : Option ℚ := do
  let stAvg ← decode_hex_field raw STROKE_TIME_AVG
  let ptAvg ← decode_hex_field raw STROKE_PULL_TIME_AVG
  pure (if (ptAvg : ℚ) > 0 then ((stAvg : ℚ) - (ptAvg : ℚ)) / ((ptAvg : ℚ) * 1.25) else 0)

/-- `fn instant_workout_values_update`: decode the raw payload map of one
cycle into a sample, one helper per assignment of the source, in source
order.  Every `unwrap` of the source (missing map entry, failed parse,
out-of-range slice) is a `none`; the sample exists iff every field decodes. -/
def instant_workout_values_update (raw : RawValues) : Option InstantWorkoutValues := do
  let t ← decode_time raw
  let dist ← decode_hex_field raw DISTANCE
  let pac ← decode_pace_field raw
  let sc ← decode_hex_field raw STROKE_COUNT
  let sr ← decode_hex_field raw ZONE_STROKE_RATE
  let ratio ← decode_stroke_ratio raw
  let hrate ← decode_hex_field raw ZONE_HEART_RATE
  pure { time_in_seconds := t,
         distance_in_meters := dist,
         seconds_per_500m := pac,
         stroke_count := sc,
         strokes_per_minute := sr,
         stroke_ratio := ratio,
         heart_rate := hrate }

/-- Line handling of the receive loop in `fn workout_values_update`: an
`ERROR` line reports a communication error (the `Bool` models the
`println!`) and records nothing; a line longer than 6 characters whose
first three characters are one of the data class markers is matched against
every catalog register and, on an exact response-prefix match, its payload
is inserted; every other line is ignored. -/
def process_line (raw : RawValues) (line : Str) : RawValues × Bool :=
  if line = RET_ERROR then (raw, true)
  else if 6 < line.length ∧
      (line.take 3 = RET_DATA_1_BYTE ∨ line.take 3 = RET_DATA_2_BYTES ∨
       line.take 3 = RET_DATA_3_BYTES) then
    (WATER_ROWER_VALUES.foldl
      (fun r v =>
        if line.take v.response.length = v.response then
          rawInsert r v.name (line.drop v.response.length)
        else r)
      raw, false)
  else (raw, false)

/-- Raw value map accumulated over all lines received within one cycle's
2-second budget (the map starts empty each cycle). -/
def cycle_raw (lines : List Str) : RawValues :=
  lines.foldl (fun r l => (process_line r l).1) []

/-- `fn global_workout_values_update`: bump the datapoint counter and copy
the running totals from the current sample. -/
def global_workout_values_update (iwv : InstantWorkoutValues) (gwv : GlobalWorkoutValues) :
    GlobalWorkoutValues :=
  { gwv with
    datapoints := (gwv.datapoints + 1) % u32Mod,
    total_time_in_seconds := iwv.time_in_seconds,
    total_distance_in_meters := iwv.distance_in_meters,
    total_stroke_count := iwv.stroke_count }

/-- Session state of the recording loop in `fn main`: workout state,
running globals, and the appended sample sequence (`datapoints` vector). -/
structure SessionState where
  state : WorkoutState
  gwv : GlobalWorkoutValues
  datapoints : List InstantWorkoutValues
deriving DecidableEq, Repr

/-- One iteration of the recording loop in `fn main` around
`fn workout_values_update`, fed the lines received in this cycle: decode
the cycle's raw map (a `none` is the source's panic); if the decoded
elapsed time is nonzero and equals the previous cumulative elapsed time,
the state becomes `Finished`, the loop breaks and the sample is not pushed;
otherwise the globals are updated from the sample and it is pushed. -/
def record_iteration (s : SessionState) (lines : List Str) : Option SessionState := do
  let iwv ← instant_workout_values_update (cycle_raw lines)
  if iwv.time_in_seconds > 0 ∧ iwv.time_in_seconds = s.gwv.total_time_in_seconds then
    pure { s with state := WorkoutState.Finished }
  else
    pure { state := s.state,
           gwv := global_workout_values_update iwv s.gwv,
           datapoints := s.datapoints ++ [iwv] }

/-- `pub fn start`: after the `USB` command, every line of the response
equal to the hardware sentinel sets the state to `Connected`. -/
def start (st : WorkoutState) (lines : List Str) : WorkoutState :=
  lines.foldl (fun s line => if line = RET_HW_TYPE then WorkoutState.Connected else s) st

/-- `pub fn wait_for_first_stroke`, one response: every line equal to the
stroke-start sentinel sets the state to `Running`. -/
def first_stroke_scan (st : WorkoutState) (lines : List Str) : WorkoutState :=
  lines.foldl (fun s line => if line = WR_STROKE_START then WorkoutState.Running else s) st

/-- The `x_valid_values` vectors of `fn global_workout_values_finalize`:
the strictly positive values of one `u32` field, in sample order. -/
def validNat (f : InstantWorkoutValues → Nat) (dps : List InstantWorkoutValues) : List Nat :=
  (dps.filter (fun v => 0 < f v)).map f

/-- `stroke_ratio_valid_values`: the strictly positive stroke ratios, in
sample order. -/
def validRatio (dps : List InstantWorkoutValues) : List ℚ :=
  (dps.filter (fun v => 0 < v.stroke_ratio)).map (fun v => v.stroke_ratio)

/-- `iter().min()` on a nonempty vector, or the fold that starts from
element 0 used for the `f32` field: fold `min` from the head. -/
def listMin {α : Type} [LinearOrder α] (l : List α) : Option α :=
  match l with
  | [] => none
  | x :: xs => some (xs.foldl min x)

/-- `iter().max()` counterpart of `listMin`. -/
def listMax {α : Type} [LinearOrder α] (l : List α) : Option α :=
  match l with
  | [] => none
  | x :: xs => some (xs.foldl max x)

/-- `valid_values.iter().sum::<u32>() as f32 / len as f32` average of
`fn global_workout_values_finalize` for the `u32` fields: the `u32` sum
wraps mod `2^32` in a release build, so the sum is reduced `% u32Mod`
before the cast (`f32` modelled as `ℚ`). -/
def listAvgNat (l : List Nat) : ℚ := ((l.sum % u32Mod : Nat) : ℚ) / (l.length : ℚ)

/-- `sum / len` average for the `f32` stroke ratios. -/
def listAvgRat (l : List ℚ) : ℚ := l.sum / (l.length : ℚ)

/-- `pub fn global_workout_values_finalize`: stamp the end time and, for
each of the four statistics fields whose valid-value vector is nonempty,
overwrite that field's min/avg/max; an empty vector leaves the field as it
was.  Each field of the result is written as one conditional, equivalent to
the source's four `if !empty` blocks. -/
def global_workout_values_finalize (dt_end : Str) (dps : List InstantWorkoutValues)
    (gwv : GlobalWorkoutValues) : GlobalWorkoutValues :=
  let sp := validNat (fun v => v.seconds_per_500m) dps
  let spm := validNat (fun v => v.strokes_per_minute) dps
  let srat := validRatio dps
  let hr := validNat (fun v => v.heart_rate) dps
  { gwv with
    date_time_end := dt_end,
    seconds_per_500m_min := (listMin sp).getD gwv.seconds_per_500m_min,
    seconds_per_500m_avg := if sp = [] then gwv.seconds_per_500m_avg else listAvgNat sp,
    seconds_per_500m_max := (listMax sp).getD gwv.seconds_per_500m_max,
    strokes_per_minute_min := (listMin spm).getD gwv.strokes_per_minute_min,
    strokes_per_minute_avg := if spm = [] then gwv.strokes_per_minute_avg else listAvgNat spm,
    strokes_per_minute_max := (listMax spm).getD gwv.strokes_per_minute_max,
    stroke_ratio_min := (listMin srat).getD gwv.stroke_ratio_min,
    stroke_ratio_avg := if srat = [] then gwv.stroke_ratio_avg else listAvgRat srat,
    stroke_ratio_max := (listMax srat).getD gwv.stroke_ratio_max,
    heart_rate_min := (listMin hr).getD gwv.heart_rate_min,
    heart_rate_avg := if hr = [] then gwv.heart_rate_avg else listAvgNat hr,
    heart_rate_max := (listMax hr).getD gwv.heart_rate_max }

/-- Spec-side notion: `m` is the minimum of the list `l`. -/
def IsMinOf {α : Type} [LinearOrder α] (m : α) (l : List α) : Prop :=
  m ∈ l ∧ ∀ x ∈ l, m ≤ x

/-- Spec-side notion: `m` is the maximum of the list `l`. -/
def IsMaxOf {α : Type} [LinearOrder α] (m : α) (l : List α) : Prop :=
  m ∈ l ∧ ∀ x ∈ l, x ≤ m

/-- The twelve min/avg/max summary-statistics fields of the globals, as one
tuple (the part of `GlobalWorkoutValues` computed by the finalizer from the
sample sequence). -/
def statFields (g : GlobalWorkoutValues) :
    (Nat × ℚ × Nat) × (Nat × ℚ × Nat) × (ℚ × ℚ × ℚ) × (Nat × ℚ × Nat) :=
  ((g.seconds_per_500m_min, g.seconds_per_500m_avg, g.seconds_per_500m_max),
   (g.strokes_per_minute_min, g.strokes_per_minute_avg, g.strokes_per_minute_max),
   (g.stroke_ratio_min, g.stroke_ratio_avg, g.stroke_ratio_max),
   (g.heart_rate_min, g.heart_rate_avg, g.heart_rate_max))

/-! Concrete test vectors (device responses of one polling cycle). -/

/-- A full cycle of responses: 5 s elapsed, distance `0x0100`, stroke count
`0x0010`, stroke time `0x64`, pull time `0x00`, heart rate `0x8C`, pace
payload `0A01`, stroke rate `0x1E`. -/
def sampleLines : List Str :=
  ["IDS1E105".toList, "IDS1E200".toList, "IDS1E300".toList, "IDD0550100".toList,
   "IDD1400010".toList, "IDS14264".toList, "IDS14300".toList, "IDS1A08C".toList,
   "IDD1A50A01".toList, "IDS1A91E".toList]

/-- The decoded sample of `sampleLines`. -/
def sampleIwv : InstantWorkoutValues :=
  { time_in_seconds := 5, distance_in_meters := 256, seconds_per_500m := 266,
    stroke_count := 16, strokes_per_minute := 30, stroke_ratio := 0, heart_rate := 140 }

/-- `sampleLines` with the heart-rate response missing. -/
def sampleLinesMissing : List Str :=
  ["IDS1E105".toList, "IDS1E200".toList, "IDS1E300".toList, "IDD0550100".toList,
   "IDD1400010".toList, "IDS14264".toList, "IDS14300".toList,
   "IDD1A50A01".toList, "IDS1A91E".toList]

/-- A running session whose previous cycle already reached 5 s of elapsed
time. -/
def sampleSession : SessionState :=
  { state := WorkoutState.Running,
    gwv := { global_workout_values_init [] [] [] with
             datapoints := 1, total_time_in_seconds := 5,
             total_distance_in_meters := 256, total_stroke_count := 16 },
    datapoints := [sampleIwv] }

/-- Like `sampleLines` but with pull time `0x32`, so that the stroke ratio
is `(100 - 50) / (50 * 1.25) = 0.8`. -/
def ratioLines : List Str :=
  ["IDS1E105".toList, "IDS1E200".toList, "IDS1E300".toList, "IDD0550100".toList,
   "IDD1400010".toList, "IDS14264".toList, "IDS14332".toList, "IDS1A08C".toList,
   "IDD1A50A01".toList, "IDS1A91E".toList]

/-- The decoded sample of `ratioLines`. -/
def ratioIwv : InstantWorkoutValues :=
  { time_in_seconds := 5, distance_in_meters := 256, seconds_per_500m := 266,
    stroke_count := 16, strokes_per_minute := 30, stroke_ratio := 4 / 5, heart_rate := 140 }

/-- A sample whose only nonzero field is the heart rate. -/
def hrSample (n : Nat) : InstantWorkoutValues :=
  { instant_workout_values_init with heart_rate := n }

/-- The heart-rate sequence `[0, 140, 0, 150]` of the spec's aggregation
example. -/
def exampleDps : List InstantWorkoutValues :=
  [hrSample 0, hrSample 140, hrSample 0, hrSample 150]

/-! Helper lemmas. -/

/-- Unfolding lemma for `decode_hex_field`. -/
theorem decode_hex_field_eq_some (raw : RawValues) (v : WaterRowerValue) (n : Nat) :
    decode_hex_field raw v = some n ↔
    ∃ p, rawGet raw v.name = some p ∧ from_str_radix 16 p = some n := by
  simp [decode_hex_field, Option.bind_eq_some]

/-- Unfolding lemma for `decode_time`. -/
theorem decode_time_eq_some (raw : RawValues) (t : Nat) :
    decode_time raw = some t ↔
    ∃ ssec s smin m shr hcnt, rawGet raw DISPLAY_SECONDS.name = some ssec ∧
      from_str_radix 10 ssec = some s ∧
      rawGet raw DISPLAY_MINUTES.name = some smin ∧
      from_str_radix 10 smin = some m ∧
      rawGet raw DISPLAY_HOURS.name = some shr ∧
      from_str_radix 10 shr = some hcnt ∧
      (s + 60 * m + 3600 * hcnt) % u32Mod = t := by
  simp [decode_time, Option.bind_eq_some]

/-- Unfolding lemma for `decode_pace`. -/
theorem decode_pace_eq_some (p : Str) (n : Nat) :
    decode_pace p = some n ↔
    ∃ lows lo highs hi, strSlice p 0 2 = some lows ∧ from_str_radix 16 lows = some lo ∧
      strSlice p 2 4 = some highs ∧ from_str_radix 16 highs = some hi ∧
      (lo + 256 * hi) % u32Mod = n := by
  simp [decode_pace, Option.bind_eq_some]

/-- Unfolding lemma for `decode_pace_field`. -/
theorem decode_pace_field_eq_some (raw : RawValues) (n : Nat) :
    decode_pace_field raw = some n ↔
    ∃ p, rawGet raw ZONE_SECONDS_PER_500M.name = some p ∧ decode_pace p = some n := by
  simp [decode_pace_field, Option.bind_eq_some]

/-- Unfolding lemma for `decode_stroke_ratio`. -/
theorem decode_stroke_ratio_eq_some (raw : RawValues) (r : ℚ) :
    decode_stroke_ratio raw = some r ↔
    ∃ stAvg ptAvg, decode_hex_field raw STROKE_TIME_AVG = some stAvg ∧
      decode_hex_field raw STROKE_PULL_TIME_AVG = some ptAvg ∧
      (if (ptAvg : ℚ) > 0 then ((stAvg : ℚ) - (ptAvg : ℚ)) / ((ptAvg : ℚ) * 1.25) else 0) = r := by
  simp [decode_stroke_ratio, Option.bind_eq_some]

/-- Unfolding lemma for `instant_workout_values_update`. -/
theorem instant_update_eq_some (raw : RawValues) (iwv : InstantWorkoutValues) :
    instant_workout_values_update raw = some iwv ↔
    ∃ t dist pac sc sr ratio hrate, decode_time raw = some t ∧
      decode_hex_field raw DISTANCE = some dist ∧
      decode_pace_field raw = some pac ∧
      decode_hex_field raw STROKE_COUNT = some sc ∧
      decode_hex_field raw ZONE_STROKE_RATE = some sr ∧
      decode_stroke_ratio raw = some ratio ∧
      decode_hex_field raw ZONE_HEART_RATE = some hrate ∧
      ({ time_in_seconds := t, distance_in_meters := dist, seconds_per_500m := pac,
         stroke_count := sc, strokes_per_minute := sr, stroke_ratio := ratio,
         heart_rate := hrate } : InstantWorkoutValues) = iwv := by
  simp [instant_workout_values_update, Option.bind_eq_some]

/-- The `u32` modulus as a numeral. -/
theorem u32Mod_eq : u32Mod = 4294967296 := by norm_num [u32Mod]

/-- A sign character is not a digit. -/
theorem digitVal_plus : digitVal '+' = none := by decide

/-- A sign character is not a digit. -/
theorem digitVal_minus : digitVal '-' = none := by decide

/-- `from_str_radix 16` on two digit characters returns the two-digit hex
value. -/
theorem from_str_radix_16_two (a b : Char) (da db : Nat)
    (hda : digitVal a = some da) (hdb : digitVal b = some db)
    (ha16 : da < 16) (hb16 : db < 16) :
    from_str_radix 16 [a, b] = some (16 * da + db) := by
  have ha1 : a ≠ '+' := by
    rintro rfl; rw [digitVal_plus] at hda; exact Option.noConfusion hda
  have ha2 : a ≠ '-' := by
    rintro rfl; rw [digitVal_minus] at hda; exact Option.noConfusion hda
  simp only [from_str_radix, if_neg ha1, if_neg ha2, parseDigits1, parseDigitsAux, hda, hdb]
  rw [if_pos ⟨ha16, by rw [u32Mod_eq]; omega⟩, if_pos ⟨hb16, by rw [u32Mod_eq]; omega⟩]
  simp [parseDigitsAux]

/-- Looking up the key just inserted yields the inserted payload. -/
theorem rawGet_insert_self (r : RawValues) (k v : Str) :
    rawGet (rawInsert r k v) k = some v := by
  simp [rawInsert, rawGet]

/-- Inserting under one key leaves other lookups unchanged. -/
theorem rawGet_insert_ne (r : RawValues) (k v n : Str) (h : k ≠ n) :
    rawGet (rawInsert r k v) n = rawGet r n := by
  simp [rawInsert, rawGet, h]

/-- Folding `min` from the head computes the minimum of the list. -/
theorem foldl_min_isMin {α : Type} [LinearOrder α] (xs : List α) (x : α) :
    IsMinOf (xs.foldl min x) (x :: xs) := by
  induction xs generalizing x with
  | nil => exact ⟨List.mem_singleton.mpr rfl, by simp⟩
  | cons y ys ih =>
    simp only [List.foldl]
    obtain ⟨hmem, hle⟩ := ih (min x y)
    constructor
    · rcases List.mem_cons.mp hmem with h | h
      · rcases min_choice x y with h2 | h2
        · rw [h, h2]; exact List.mem_cons_self _ _
        · rw [h, h2]; exact List.mem_cons_of_mem _ (List.mem_cons_self _ _)
      · exact List.mem_cons_of_mem _ (List.mem_cons_of_mem _ h)
    · intro z hz
      rcases List.mem_cons.mp hz with h | h
      · subst h
        exact le_trans (hle _ (List.mem_cons_self _ _)) (min_le_left _ _)
      · rcases List.mem_cons.mp h with h2 | h2
        · subst h2; exact le_trans (hle _ (List.mem_cons_self _ _)) (min_le_right _ _)
        · exact hle _ (List.mem_cons_of_mem _ h2)

/-- Folding `max` from the head computes the maximum of the list. -/
theorem foldl_max_isMax {α : Type} [LinearOrder α] (xs : List α) (x : α) :
    IsMaxOf (xs.foldl max x) (x :: xs) := by
  induction xs generalizing x with
  | nil => exact ⟨List.mem_singleton.mpr rfl, by simp⟩
  | cons y ys ih =>
    simp only [List.foldl]
    obtain ⟨hmem, hle⟩ := ih (max x y)
    constructor
    · rcases List.mem_cons.mp hmem with h | h
      · rcases max_choice x y with h2 | h2
        · rw [h, h2]; exact List.mem_cons_self _ _
        · rw [h, h2]; exact List.mem_cons_of_mem _ (List.mem_cons_self _ _)
      · exact List.mem_cons_of_mem _ (List.mem_cons_of_mem _ h)
    · intro z hz
      rcases List.mem_cons.mp hz with h | h
      · subst h
        exact le_trans (le_max_left _ _) (hle _ (List.mem_cons_self _ _))
      · rcases List.mem_cons.mp h with h2 | h2
        · subst h2; exact le_trans (le_max_right _ _) (hle _ (List.mem_cons_self _ _))
        · exact hle _ (List.mem_cons_of_mem _ h2)

/-- The register-matching fold of `process_line` leaves every key that no
entry of the catalog sublist writes unchanged. -/
theorem fold_get_unmatched (l : List WaterRowerValue) (raw : RawValues) (line n : Str)
    (hn : ∀ v ∈ l, ¬(line.take v.response.length = v.response ∧ v.name = n)) :
    rawGet (l.foldl
      (fun r v =>
        if line.take v.response.length = v.response then
          rawInsert r v.name (line.drop v.response.length)
        else r) raw) n = rawGet raw n := by
  induction l generalizing raw with
  | nil => rfl
  | cons v t ih =>
    simp only [List.foldl]
    rw [ih _ fun w hw => hn w (List.mem_cons_of_mem _ hw)]
    by_cases hc : line.take v.response.length = v.response
    · rw [if_pos hc,
        rawGet_insert_ne _ _ _ _ fun he => hn v (List.mem_cons_self _ _) ⟨hc, he⟩]
    · rw [if_neg hc]

/-- A character whose `digitVal` defaults below 16 is a hex digit with a
value below 16. -/
theorem digit_lt_of_getD {c : Char} (h : (digitVal c).getD 16 < 16) :
    ∃ d, digitVal c = some d ∧ d < 16 := by
  cases hdv : digitVal c with
  | none => rw [hdv] at h; simp at h
  | some d => rw [hdv] at h; exact ⟨d, rfl, by simpa using h⟩

/-- `Option.getD` of the same option twice collapses. -/
theorem getD_idem {α : Type} (o : Option α) (a : α) : o.getD (o.getD a) = o.getD a := by
  cases o <;> rfl

/-- A conditional absorbed into its own else-branch default. -/
theorem ite_absorb {α : Type} {c : Prop} [Decidable c] (x y : α) :
    (if c then (if c then x else y) else y) = if c then x else y := by
  split_ifs <;> rfl

/-- Every register the decoder touches must be present in the raw map when
decoding succeeds. -/
theorem decode_requires (raw : RawValues) (iwv : InstantWorkoutValues)
    (h : instant_workout_values_update raw = some iwv) :
    ∀ v ∈ WATER_ROWER_VALUES, (rawGet raw v.name).isSome := by
  obtain ⟨t, dist, pac, sc, sr, ratio, hrate, ht, hdist, hpac, hsc, hsr, hratio, hhr, _⟩ :=
    (instant_update_eq_some raw iwv).mp h
  obtain ⟨ssec, s, smin, m, shr, hcnt, e1, _, e3, _, e5, _, _⟩ :=
    (decode_time_eq_some raw t).mp ht
  obtain ⟨pd, ed, _⟩ := (decode_hex_field_eq_some raw DISTANCE dist).mp hdist
  obtain ⟨pp, ep, _⟩ := (decode_pace_field_eq_some raw pac).mp hpac
  obtain ⟨pc, ec, _⟩ := (decode_hex_field_eq_some raw STROKE_COUNT sc).mp hsc
  obtain ⟨pr, er, _⟩ := (decode_hex_field_eq_some raw ZONE_STROKE_RATE sr).mp hsr
  obtain ⟨st2, pt2, est, ept, _⟩ := (decode_stroke_ratio_eq_some raw ratio).mp hratio
  obtain ⟨pst, est2, _⟩ := (decode_hex_field_eq_some raw STROKE_TIME_AVG st2).mp est
  obtain ⟨ppt, ept2, _⟩ := (decode_hex_field_eq_some raw STROKE_PULL_TIME_AVG pt2).mp ept
  obtain ⟨ph2, eh, _⟩ := (decode_hex_field_eq_some raw ZONE_HEART_RATE hrate).mp hhr
  intro v hv
  simp only [WATER_ROWER_VALUES, List.mem_cons, List.not_mem_nil, or_false] at hv
  rcases hv with rfl | rfl | rfl | rfl | rfl | rfl | rfl | rfl | rfl | rfl <;>
    simp [e1, e3, e5, ed, ep, ec, er, est2, ept2, eh]

/-- The cycle of `ratioLines` decodes to `ratioIwv` (stroke ratio `0.8`). -/
theorem ratio_lines_decode :
    instant_workout_values_update (cycle_raw ratioLines) = some ratioIwv := by
  apply (instant_update_eq_some _ _).mpr
  refine ⟨5, 256, 266, 16, 30, 4 / 5, 140, by decide, by decide, by decide, by decide,
    by decide, ?_, by decide, rfl⟩
  apply (decode_stroke_ratio_eq_some _ _).mpr
  refine ⟨100, 50, by decide, by decide, ?_⟩
  rw [if_pos (by norm_num)]
  push_cast
  norm_num

/-- The sentinel fold of `start` ends in `Connected` exactly when the
sentinel occurs among the lines; otherwise it keeps the initial state. -/
theorem start_foldl (lines : List Str) (st : WorkoutState) :
    start st lines = if RET_HW_TYPE ∈ lines then WorkoutState.Connected else st := by
  induction lines generalizing st with
  | nil => simp [start]
  | cons l ls ih =>
    simp only [start, List.foldl] at ih ⊢
    by_cases h1 : l = RET_HW_TYPE
    · rw [if_pos h1, ih WorkoutState.Connected]
      by_cases h2 : RET_HW_TYPE ∈ ls <;> simp [List.mem_cons, h1, h2]
    · have h1s : ¬(RET_HW_TYPE = l) := fun h => h1 h.symm
      rw [if_neg h1, ih st]
      by_cases h2 : RET_HW_TYPE ∈ ls <;> simp [List.mem_cons, h1s, h2]

/-! Claim theorems. -/

/-- C1: after decoding a cycle, if the sample's elapsed time is nonzero and
exactly equals the previous cycle's cumulative elapsed time, the session
becomes `Finished` and the sample is discarded — it is not appended and the
running totals (datapoint count, elapsed time, distance, stroke count) are
unchanged; otherwise the sample is appended and the running totals are
updated from it. -/
theorem completion_rule_step (s : SessionState) (lines : List Str)
    (iwv : InstantWorkoutValues)
    (hdec : instant_workout_values_update (cycle_raw lines) = some iwv) :
    (iwv.time_in_seconds ≠ 0 ∧ iwv.time_in_seconds = s.gwv.total_time_in_seconds →
      record_iteration s lines =
        some { state := WorkoutState.Finished, gwv := s.gwv, datapoints := s.datapoints })
    ∧ (¬(iwv.time_in_seconds ≠ 0 ∧ iwv.time_in_seconds = s.gwv.total_time_in_seconds) →
      record_iteration s lines =
        some { state := s.state, gwv := global_workout_values_update iwv s.gwv,
               datapoints := s.datapoints ++ [iwv] }) := by
  constructor
  · intro h
    have h2 : iwv.time_in_seconds > 0 ∧
        iwv.time_in_seconds = s.gwv.total_time_in_seconds :=
      ⟨Nat.pos_of_ne_zero h.1, h.2⟩
    simp [record_iteration, hdec, h2]
    omega
  · intro h
    have h2 : ¬(iwv.time_in_seconds > 0 ∧
        iwv.time_in_seconds = s.gwv.total_time_in_seconds) :=
      fun hc => h ⟨Nat.pos_iff_ne_zero.mp hc.1, hc.2⟩
    simp [record_iteration, hdec, h2]

/-- C1 witness: on a session whose total elapsed time is already 5 s, the
cycle `sampleLines` (elapsed time 5 s again) finishes the session without
appending. -/
theorem completion_rule_step_witness :
    (sampleIwv.time_in_seconds ≠ 0
      ∧ sampleIwv.time_in_seconds = sampleSession.gwv.total_time_in_seconds)
    ∧ record_iteration sampleSession sampleLines =
        some { state := WorkoutState.Finished, gwv := sampleSession.gwv,
               datapoints := sampleSession.datapoints } :=
  ⟨by decide,
    (completion_rule_step sampleSession sampleLines sampleIwv (by decide)).1 (by decide)⟩

/-- C2: a 4-hex-character pace payload decodes to the hex value of
characters `[0..2)` plus 256 times the hex value of characters `[2..4)`;
in particular `"0A01"` decodes to 266. -/
theorem pace_low_high_decoding (p : Str) (hlen : p.length = 4)
    (hhex : ∀ c ∈ p, (digitVal c).getD 16 < 16) :
    decode_pace p = some (specHexVal (p.take 2) + 256 * specHexVal (p.drop 2))
    ∧ decode_pace ("0A01".toList) = some 266 := by
  refine ⟨?_, by decide⟩
  match p, hlen with
  | [a, b, c, d], _ =>
    obtain ⟨da, hda, hda16⟩ := digit_lt_of_getD (hhex a (by simp))
    obtain ⟨db, hdb, hdb16⟩ := digit_lt_of_getD (hhex b (by simp))
    obtain ⟨dc, hdc, hdc16⟩ := digit_lt_of_getD (hhex c (by simp))
    obtain ⟨dd, hdd, hdd16⟩ := digit_lt_of_getD (hhex d (by simp))
    have h1 : strSlice [a, b, c, d] 0 2 = some [a, b] := rfl
    have h2 : strSlice [a, b, c, d] 2 4 = some [c, d] := rfl
    have h3 := from_str_radix_16_two a b da db hda hdb hda16 hdb16
    have h4 := from_str_radix_16_two c d dc dd hdc hdd hdc16 hdd16
    have h5 : specHexVal [a, b] = 16 * da + db := by
      simp [specHexVal, List.foldl, hda, hdb]
    have h6 : specHexVal [c, d] = 16 * dc + dd := by
      simp [specHexVal, List.foldl, hdc, hdd]
    simp [decode_pace, h1, h2, h3, h4, h5, h6, u32Mod_eq]
    omega

/-- C2 witness: the payload `"0A01"` satisfies the hypotheses and decodes
to `0x0A + 256 * 0x01`. -/
theorem pace_low_high_decoding_witness :
    ("0A01".toList.length = 4)
    ∧ decode_pace ("0A01".toList) =
        some (specHexVal ("0A01".toList.take 2) + 256 * specHexVal ("0A01".toList.drop 2)) :=
  ⟨by decide, (pace_low_high_decoding ("0A01".toList) (by decide) (by decide)).1⟩

/-- C4: the decoded sample's stroke ratio equals
`(stroke_time_avg - pull_time_avg) / (pull_time_avg * 1.25)` when the pull
time average is positive and is exactly 0 when it is 0. -/
theorem stroke_ratio_rule (raw : RawValues) (iwv : InstantWorkoutValues)
    (stAvg ptAvg : Nat)
    (hdec : instant_workout_values_update raw = some iwv)
    (hst : decode_hex_field raw STROKE_TIME_AVG = some stAvg)
    (hpt : decode_hex_field raw STROKE_PULL_TIME_AVG = some ptAvg) :
    (0 < ptAvg →
      iwv.stroke_ratio = ((stAvg : ℚ) - (ptAvg : ℚ)) / ((ptAvg : ℚ) * 1.25))
    ∧ (ptAvg = 0 → iwv.stroke_ratio = 0) := by
  obtain ⟨t, dist, pac, sc, sr, ratio, hrate, ht, hdist, hpac, hsc, hsr, hratio, hhr, heq⟩ :=
    (instant_update_eq_some raw iwv).mp hdec
  obtain ⟨st2, pt2, e1, e2, e3⟩ := (decode_stroke_ratio_eq_some raw ratio).mp hratio
  rw [hst, Option.some.injEq] at e1; subst e1
  rw [hpt, Option.some.injEq] at e2; subst e2
  subst heq
  constructor
  · intro hpos
    show ratio = _
    rw [← e3, if_pos]
    exact_mod_cast Nat.cast_pos.mpr hpos
  · intro h0
    subst h0
    show ratio = 0
    rw [← e3, if_neg]
    norm_num

/-- C4 witness: the cycle `ratioLines` decodes stroke time `0x64 = 100` and
pull time `0x32 = 50`, and its sample's stroke ratio is
`(100 - 50) / (50 * 1.25)`. -/
theorem stroke_ratio_rule_witness :
    (0 < 50)
    ∧ ratioIwv.stroke_ratio =
        (((100 : Nat) : ℚ) - ((50 : Nat) : ℚ)) / (((50 : Nat) : ℚ) * 1.25) :=
  ⟨by decide,
    (stroke_ratio_rule (cycle_raw ratioLines) ratioIwv 100 50 ratio_lines_decode
      (by decide) (by decide)).1 (by decide)⟩

/-- C5: an `ERROR` line reports a communication error and records nothing;
a line is a data frame iff its length exceeds 6 and its first 3 characters
are one of `IDS`, `IDD`, `IDT`, in which case every catalog register whose
response prefix matches the line's start gets the remainder recorded under
its name (shadowing earlier values), and unmatched names are untouched;
all other lines are silently ignored. -/
theorem line_classification (raw : RawValues) (line : Str) :
    (line = RET_ERROR → process_line raw line = (raw, true))
    ∧ (line ≠ RET_ERROR →
        (6 < line.length ∧ (line.take 3 = RET_DATA_1_BYTE ∨ line.take 3 = RET_DATA_2_BYTES ∨
          line.take 3 = RET_DATA_3_BYTES)) →
        ((process_line raw line).2 = false
          ∧ (∀ v ∈ WATER_ROWER_VALUES, line.take v.response.length = v.response →
              rawGet (process_line raw line).1 v.name = some (line.drop v.response.length))
          ∧ ∀ n, (∀ v ∈ WATER_ROWER_VALUES,
                ¬(line.take v.response.length = v.response ∧ v.name = n)) →
              rawGet (process_line raw line).1 n = rawGet raw n))
    ∧ (line ≠ RET_ERROR →
        ¬(6 < line.length ∧ (line.take 3 = RET_DATA_1_BYTE ∨ line.take 3 = RET_DATA_2_BYTES ∨
          line.take 3 = RET_DATA_3_BYTES)) →
        process_line raw line = (raw, false)) := by
  refine ⟨fun h => ?_, fun hne hcond => ?_, fun hne hncond => ?_⟩
  · simp only [process_line, if_pos h]
  · simp only [process_line, if_neg hne, if_pos hcond]
    refine ⟨by trivial, ?_, ?_⟩
    · intro v hv hmatch
      simp only [WATER_ROWER_VALUES, List.mem_cons, List.not_mem_nil, or_false] at hv
      rcases hv with rfl | rfl | rfl | rfl | rfl | rfl | rfl | rfl | rfl | rfl <;>
        (simp only [WATER_ROWER_VALUES, List.foldl, DISPLAY_SECONDS, DISPLAY_MINUTES,
           DISPLAY_HOURS, DISTANCE, STROKE_COUNT, STROKE_TIME_AVG, STROKE_PULL_TIME_AVG,
           ZONE_HEART_RATE, ZONE_SECONDS_PER_500M, ZONE_STROKE_RATE] at hmatch ⊢) <;>
        (simp only [String.toList] at hmatch ⊢) <;>
        (simp only [List.length_cons, List.length_nil] at hmatch ⊢) <;>
        simp [hmatch, rawGet_insert_self, rawGet_insert_ne]
    · intro n hn
      exact fold_get_unmatched _ _ _ _ hn
  · simp only [process_line, if_neg hne, if_neg hncond]

/-- C5 witness: the data line `"IDS1E105"` matches the display-seconds
register and its payload `"05"` is recorded under that register's name. -/
theorem line_classification_witness :
    ("IDS1E105".toList ≠ RET_ERROR
      ∧ 6 < ("IDS1E105".toList).length ∧ ("IDS1E105".toList).take 3 = RET_DATA_1_BYTE
      ∧ ("IDS1E105".toList).take DISPLAY_SECONDS.response.length = DISPLAY_SECONDS.response)
    ∧ rawGet (process_line [] ("IDS1E105".toList)).1 DISPLAY_SECONDS.name =
        some (("IDS1E105".toList).drop DISPLAY_SECONDS.response.length) :=
  ⟨by decide,
    ((line_classification [] ("IDS1E105".toList)).2.1 (by decide)
        ⟨by decide, Or.inl (by decide)⟩).2.1 DISPLAY_SECONDS (by decide) (by decide)⟩

/-- C6: decoding a cycle's raw map fails (the source panics, modelled as
`none`) whenever any of the ten polled registers is missing from the map,
rather than producing a sample with stale or default values. -/
theorem decode_missing_register_panics (raw : RawValues) (v : WaterRowerValue)
    (hv : v ∈ WATER_ROWER_VALUES) (hmiss : rawGet raw v.name = none) :
    instant_workout_values_update raw = none := by
  cases hd : instant_workout_values_update raw with
  | none => rfl
  | some iwv =>
    have h2 := decode_requires raw iwv hd v hv
    rw [hmiss] at h2
    simp at h2

/-- C6 witness: with the heart-rate response missing from the cycle,
decoding yields `none`. -/
theorem decode_missing_register_panics_witness :
    (ZONE_HEART_RATE ∈ WATER_ROWER_VALUES
      ∧ rawGet (cycle_raw sampleLinesMissing) ZONE_HEART_RATE.name = none)
    ∧ instant_workout_values_update (cycle_raw sampleLinesMissing) = none :=
  ⟨⟨by decide, by decide⟩,
    decode_missing_register_panics (cycle_raw sampleLinesMissing) ZONE_HEART_RATE
      (by decide) (by decide)⟩

/-- C7: the distance payload is decoded as one whole hexadecimal number
(most-significant digit first); on the payload `"0A01"` this yields
`0x0A01 = 2561`, not the byte-pair composition `266` that the pace field
uses. -/
theorem distance_single_hex :
    (∀ raw iwv p, instant_workout_values_update raw = some iwv →
      rawGet raw DISTANCE.name = some p →
      from_str_radix 16 p = some iwv.distance_in_meters)
    ∧ from_str_radix 16 ("0A01".toList) = some 2561
    ∧ decode_pace ("0A01".toList) = some 266 := by
  refine ⟨?_, by decide, by decide⟩
  intro raw iwv p hdec hp
  obtain ⟨t, dist, pac, sc, sr, ratio, hrate, ht, hdist, hpac, hsc, hsr, hratio, hhr, heq⟩ :=
    (instant_update_eq_some raw iwv).mp hdec
  obtain ⟨p2, hp2, hparse⟩ := (decode_hex_field_eq_some raw DISTANCE dist).mp hdist
  rw [hp, Option.some.injEq] at hp2
  subst hp2
  subst heq
  exact hparse

/-- C7 witness: the concrete cycle records distance payload `"0100"` and
the decoded sample's distance is its whole-hex value 256. -/
theorem distance_single_hex_witness :
    (instant_workout_values_update (cycle_raw sampleLines) = some sampleIwv
      ∧ rawGet (cycle_raw sampleLines) DISTANCE.name = some ("0100".toList))
    ∧ from_str_radix 16 ("0100".toList) = some sampleIwv.distance_in_meters :=
  ⟨⟨by decide, by decide⟩,
    (distance_single_hex).1 (cycle_raw sampleLines) sampleIwv ("0100".toList)
      (by decide) (by decide)⟩

/-- C8: after the start command, the state moves from `Init` to `Connected`
iff some line of the response equals the hardware sentinel `_WR_`, however
many times the sentinel occurs; with no sentinel it stays `Init`. -/
theorem start_transition (lines : List Str) :
    (start WorkoutState.Init lines = WorkoutState.Connected ↔ RET_HW_TYPE ∈ lines)
    ∧ (start WorkoutState.Init lines = WorkoutState.Init ↔ RET_HW_TYPE ∉ lines) := by
  by_cases h : RET_HW_TYPE ∈ lines <;> simp [start_foldl, h]

/-- C10: the sample's elapsed time is the base-10 seconds payload plus 60
times the base-10 minutes payload plus 3600 times the base-10 hours
payload (whenever the `u32` sum does not wrap). -/
theorem display_time_decoding (raw : RawValues) (iwv : InstantWorkoutValues)
    (ps pm ph : Str) (s m hcnt : Nat)
    (hdec : instant_workout_values_update raw = some iwv)
    (hps : rawGet raw DISPLAY_SECONDS.name = some ps)
    (hs : from_str_radix 10 ps = some s)
    (hpm : rawGet raw DISPLAY_MINUTES.name = some pm)
    (hm : from_str_radix 10 pm = some m)
    (hph : rawGet raw DISPLAY_HOURS.name = some ph)
    (hh : from_str_radix 10 ph = some hcnt)
    (hlt : s + 60 * m + 3600 * hcnt < u32Mod) :
    iwv.time_in_seconds = s + 60 * m + 3600 * hcnt := by
  obtain ⟨t, dist, pac, sc, sr, ratio, hrate, ht, hdist, hpac, hsc, hsr, hratio, hhr, heq⟩ :=
    (instant_update_eq_some raw iwv).mp hdec
  obtain ⟨ssec, s2, smin, m2, shr, h2, e1, e2, e3, e4, e5, e6, e7⟩ :=
    (decode_time_eq_some raw t).mp ht
  rw [hps, Option.some.injEq] at e1; subst e1
  rw [hs, Option.some.injEq] at e2; subst e2
  rw [hpm, Option.some.injEq] at e3; subst e3
  rw [hm, Option.some.injEq] at e4; subst e4
  rw [hph, Option.some.injEq] at e5; subst e5
  rw [hh, Option.some.injEq] at e6; subst e6
  subst heq
  show t = s + 60 * m + 3600 * hcnt
  rw [← e7]
  exact Nat.mod_eq_of_lt hlt

/-- C10 witness: the concrete cycle has display payloads `05`, `00`, `00`
and the decoded elapsed time is `5 + 60*0 + 3600*0`. -/
theorem display_time_decoding_witness :
    (5 + 60 * 0 + 3600 * 0 < u32Mod)
    ∧ sampleIwv.time_in_seconds = 5 + 60 * 0 + 3600 * 0 :=
  ⟨by decide,
    display_time_decoding (cycle_raw sampleLines) sampleIwv
      ("05".toList) ("00".toList) ("00".toList) 5 0 0 (by decide) (by decide) (by decide)
      (by decide) (by decide) (by decide) (by decide) (by decide)⟩

/-- C9: the twelve summary statistics produced by the finalizer are a pure
function of the sample sequence (given equal incoming statistics fields,
which are not sample-derived only when a field has no positive samples),
and finalizing twice over the same sequence changes nothing. -/
theorem summary_pure_idempotent (dt1 dt2 : Str) (dps : List InstantWorkoutValues)
    (g g' : GlobalWorkoutValues) (h : statFields g = statFields g') :
    statFields (global_workout_values_finalize dt1 dps g) =
      statFields (global_workout_values_finalize dt2 dps g')
    ∧ statFields (global_workout_values_finalize dt2 dps
        (global_workout_values_finalize dt1 dps g)) =
      statFields (global_workout_values_finalize dt1 dps g) := by
  simp only [statFields, Prod.mk.injEq] at h
  obtain ⟨⟨h1, h2, h3⟩, ⟨h4, h5, h6⟩, ⟨h7, h8, h9⟩, h10, h11, h12⟩ := h
  constructor
  · simp [statFields, global_workout_values_finalize, Prod.ext_iff,
      h1, h2, h3, h4, h5, h6, h7, h8, h9, h10, h11, h12]
  · simp [statFields, global_workout_values_finalize, Prod.ext_iff, getD_idem, ite_absorb]

/-- C9 witness: finalizing the example sequence twice from the session's
globals yields the same statistics as finalizing once. -/
theorem summary_pure_idempotent_witness :
    statFields sampleSession.gwv = statFields sampleSession.gwv
    ∧ statFields (global_workout_values_finalize [] exampleDps
        (global_workout_values_finalize [] exampleDps sampleSession.gwv)) =
      statFields (global_workout_values_finalize [] exampleDps sampleSession.gwv) :=
  ⟨rfl, (summary_pure_idempotent [] [] exampleDps sampleSession.gwv sampleSession.gwv rfl).2⟩

/-- C3: for each of pace, stroke rate, stroke ratio and heart rate, the
finalized summary's min, average and max are computed over exactly the
strictly positive values of that field; a field with no positive values
reports all-zero statistics. -/
theorem summary_positive_stats (dt_start dt_end model fw : Str)
    (dps : List InstantWorkoutValues) (g : GlobalWorkoutValues)
    (hg : g = global_workout_values_finalize dt_end dps
        (global_workout_values_init dt_start model fw)) :
    (validNat (fun v => v.seconds_per_500m) dps = [] →
        g.seconds_per_500m_min = 0 ∧ g.seconds_per_500m_avg = 0 ∧ g.seconds_per_500m_max = 0)
    ∧ (validNat (fun v => v.seconds_per_500m) dps ≠ [] →
        IsMinOf g.seconds_per_500m_min (validNat (fun v => v.seconds_per_500m) dps)
        ∧ g.seconds_per_500m_avg * ((validNat (fun v => v.seconds_per_500m) dps).length : ℚ)
            = (((validNat (fun v => v.seconds_per_500m) dps).sum % u32Mod : Nat) : ℚ)
        ∧ ((validNat (fun v => v.seconds_per_500m) dps).sum < u32Mod →
            g.seconds_per_500m_avg * ((validNat (fun v => v.seconds_per_500m) dps).length : ℚ)
              = ((validNat (fun v => v.seconds_per_500m) dps).sum : ℚ))
        ∧ IsMaxOf g.seconds_per_500m_max (validNat (fun v => v.seconds_per_500m) dps))
    ∧ (validNat (fun v => v.strokes_per_minute) dps = [] →
        g.strokes_per_minute_min = 0 ∧ g.strokes_per_minute_avg = 0
          ∧ g.strokes_per_minute_max = 0)
    ∧ (validNat (fun v => v.strokes_per_minute) dps ≠ [] →
        IsMinOf g.strokes_per_minute_min (validNat (fun v => v.strokes_per_minute) dps)
        ∧ g.strokes_per_minute_avg * ((validNat (fun v => v.strokes_per_minute) dps).length : ℚ)
            = (((validNat (fun v => v.strokes_per_minute) dps).sum % u32Mod : Nat) : ℚ)
        ∧ ((validNat (fun v => v.strokes_per_minute) dps).sum < u32Mod →
            g.strokes_per_minute_avg *
                ((validNat (fun v => v.strokes_per_minute) dps).length : ℚ)
              = ((validNat (fun v => v.strokes_per_minute) dps).sum : ℚ))
        ∧ IsMaxOf g.strokes_per_minute_max (validNat (fun v => v.strokes_per_minute) dps))
    ∧ (validRatio dps = [] →
        g.stroke_ratio_min = 0 ∧ g.stroke_ratio_avg = 0 ∧ g.stroke_ratio_max = 0)
    ∧ (validRatio dps ≠ [] →
        IsMinOf g.stroke_ratio_min (validRatio dps)
        ∧ g.stroke_ratio_avg * ((validRatio dps).length : ℚ) = (validRatio dps).sum
        ∧ IsMaxOf g.stroke_ratio_max (validRatio dps))
    ∧ (validNat (fun v => v.heart_rate) dps = [] →
        g.heart_rate_min = 0 ∧ g.heart_rate_avg = 0 ∧ g.heart_rate_max = 0)
    ∧ (validNat (fun v => v.heart_rate) dps ≠ [] →
        IsMinOf g.heart_rate_min (validNat (fun v => v.heart_rate) dps)
        ∧ g.heart_rate_avg * ((validNat (fun v => v.heart_rate) dps).length : ℚ)
            = (((validNat (fun v => v.heart_rate) dps).sum % u32Mod : Nat) : ℚ)
        ∧ ((validNat (fun v => v.heart_rate) dps).sum < u32Mod →
            g.heart_rate_avg * ((validNat (fun v => v.heart_rate) dps).length : ℚ)
              = ((validNat (fun v => v.heart_rate) dps).sum : ℚ))
        ∧ IsMaxOf g.heart_rate_max (validNat (fun v => v.heart_rate) dps)) := by
  subst hg
  refine ⟨?_, ?_, ?_, ?_, ?_, ?_, ?_, ?_⟩
  · intro h
    simp [global_workout_values_finalize, global_workout_values_init, h, listMin, listMax]
  · intro h
    rcases hvl : validNat (fun v => v.seconds_per_500m) dps with _ | ⟨x, xs⟩
    · exact absurd hvl h
    · have hnz : (((x :: xs : List Nat)).length : ℚ) ≠ 0 := by
        simp only [List.length_cons, Nat.cast_add, Nat.cast_one]
        exact Nat.cast_add_one_ne_zero xs.length
      refine ⟨?_, ?_, ?_, ?_⟩
      · simp only [global_workout_values_finalize, hvl, listMin, Option.getD_some]
        exact foldl_min_isMin xs x
      · simp only [global_workout_values_finalize, hvl, listAvgNat]
        simp only [if_neg (List.cons_ne_nil x xs)]
        exact div_mul_cancel₀ _ hnz
      · intro hov
        simp only [global_workout_values_finalize, hvl, listAvgNat]
        simp only [if_neg (List.cons_ne_nil x xs)]
        rw [Nat.mod_eq_of_lt hov]
        exact div_mul_cancel₀ _ hnz
      · simp only [global_workout_values_finalize, hvl, listMax, Option.getD_some]
        exact foldl_max_isMax xs x
  · intro h
    simp [global_workout_values_finalize, global_workout_values_init, h, listMin, listMax]
  · intro h
    rcases hvl : validNat (fun v => v.strokes_per_minute) dps with _ | ⟨x, xs⟩
    · exact absurd hvl h
    · have hnz : (((x :: xs : List Nat)).length : ℚ) ≠ 0 := by
        simp only [List.length_cons, Nat.cast_add, Nat.cast_one]
        exact Nat.cast_add_one_ne_zero xs.length
      refine ⟨?_, ?_, ?_, ?_⟩
      · simp only [global_workout_values_finalize, hvl, listMin, Option.getD_some]
        exact foldl_min_isMin xs x
      · simp only [global_workout_values_finalize, hvl, listAvgNat]
        simp only [if_neg (List.cons_ne_nil x xs)]
        exact div_mul_cancel₀ _ hnz
      · intro hov
        simp only [global_workout_values_finalize, hvl, listAvgNat]
        simp only [if_neg (List.cons_ne_nil x xs)]
        rw [Nat.mod_eq_of_lt hov]
        exact div_mul_cancel₀ _ hnz
      · simp only [global_workout_values_finalize, hvl, listMax, Option.getD_some]
        exact foldl_max_isMax xs x
  · intro h
    simp [global_workout_values_finalize, global_workout_values_init, h, listMin, listMax]
  · intro h
    rcases hvl : validRatio dps with _ | ⟨x, xs⟩
    · exact absurd hvl h
    · have hnz : (((x :: xs : List ℚ)).length : ℚ) ≠ 0 := by
        simp only [List.length_cons, Nat.cast_add, Nat.cast_one]
        exact Nat.cast_add_one_ne_zero xs.length
      refine ⟨?_, ?_, ?_⟩
      · simp only [global_workout_values_finalize, hvl, listMin, Option.getD_some]
        exact foldl_min_isMin xs x
      · simp only [global_workout_values_finalize, hvl, listAvgRat]
        simp only [if_neg (List.cons_ne_nil x xs)]
        exact div_mul_cancel₀ _ hnz
      · simp only [global_workout_values_finalize, hvl, listMax, Option.getD_some]
        exact foldl_max_isMax xs x
  · intro h
    simp [global_workout_values_finalize, global_workout_values_init, h, listMin, listMax]
  · intro h
    rcases hvl : validNat (fun v => v.heart_rate) dps with _ | ⟨x, xs⟩
    · exact absurd hvl h
    · have hnz : (((x :: xs : List Nat)).length : ℚ) ≠ 0 := by
        simp only [List.length_cons, Nat.cast_add, Nat.cast_one]
        exact Nat.cast_add_one_ne_zero xs.length
      refine ⟨?_, ?_, ?_, ?_⟩
      · simp only [global_workout_values_finalize, hvl, listMin, Option.getD_some]
        exact foldl_min_isMin xs x
      · simp only [global_workout_values_finalize, hvl, listAvgNat]
        simp only [if_neg (List.cons_ne_nil x xs)]
        exact div_mul_cancel₀ _ hnz
      · intro hov
        simp only [global_workout_values_finalize, hvl, listAvgNat]
        simp only [if_neg (List.cons_ne_nil x xs)]
        rw [Nat.mod_eq_of_lt hov]
        exact div_mul_cancel₀ _ hnz
      · simp only [global_workout_values_finalize, hvl, listMax, Option.getD_some]
        exact foldl_max_isMax xs x

/-- C3 witness: heart-rate values `[0, 140, 0, 150]` give positive
subsequence `[140, 150]`, min 140, avg 145, max 150. -/
theorem summary_positive_stats_witness :
    validNat (fun v => v.heart_rate) exampleDps ≠ []
    ∧ IsMinOf (global_workout_values_finalize [] exampleDps
        (global_workout_values_init [] [] [])).heart_rate_min
        (validNat (fun v => v.heart_rate) exampleDps)
    ∧ IsMaxOf (global_workout_values_finalize [] exampleDps
        (global_workout_values_init [] [] [])).heart_rate_max
        (validNat (fun v => v.heart_rate) exampleDps)
    ∧ (validNat (fun v => v.heart_rate) exampleDps).sum < u32Mod
    ∧ (global_workout_values_finalize [] exampleDps
        (global_workout_values_init [] [] [])).heart_rate_avg *
          ((validNat (fun v => v.heart_rate) exampleDps).length : ℚ)
        = ((validNat (fun v => v.heart_rate) exampleDps).sum : ℚ)
    ∧ validNat (fun v => v.heart_rate) exampleDps = [140, 150]
    ∧ (global_workout_values_finalize [] exampleDps
        (global_workout_values_init [] [] [])).heart_rate_min = 140
    ∧ (global_workout_values_finalize [] exampleDps
        (global_workout_values_init [] [] [])).heart_rate_max = 150
    ∧ (global_workout_values_finalize [] exampleDps
        (global_workout_values_init [] [] [])).heart_rate_avg = 145 := by
  have h := (summary_positive_stats [] [] [] [] exampleDps _ rfl).2.2.2.2.2.2.2 (by decide)
  refine ⟨by decide, h.1, h.2.2.2, by decide, h.2.2.1 (by decide), by decide, by decide,
    by decide, ?_⟩
  simp [global_workout_values_finalize, global_workout_values_init, validNat, exampleDps,
    hrSample, instant_workout_values_init, listAvgNat, List.filter, u32Mod]
  norm_num

end WaterRower
